import Mathlib

/-!
Verification development for the pyxdi dependency-injection core
(src/pyxdi/core.py).  The registry, the scope-compatibility validators,
the override map, the scoped contexts and the instance-resolution engine
are embedded as executable Lean definitions; each claim about the code is
settled by a theorem below.
-/

set_option autoImplicit false

namespace Pyxdi

/-- Interface keys are opaque, comparable type tokens (Python type objects);
we model them as natural numbers. -/
abbrev Interface := Nat

/-- The token modelling Python's NoneType / None, which register_provider
special-cases when the provider is a resource ("Event" generation). -/
def noneInterface : Interface := 0

/-- A runtime value: either the Python None object or a distinct heap object
identified by its allocation number.  A factory call is modelled as either
returning None or allocating a fresh object, which is what the identity
claims are about. -/
inductive Value where
  | pynone : Value
  | pyobj : Nat → Value
  deriving DecidableEq

/-- One factory parameter as seen through inspect: its name and its type
annotation; a missing annotation (inspect._empty) is modelled as none. -/
structure Param where
  name : String
  typeAnn : Option Interface
  deriving DecidableEq

/-- The traits of a provider callable that core.py reads off via inspect,
plus the behaviour of its body that the claims observe: returnsNone models a
factory whose return (or yielded) value is Python None. -/
structure ProviderObj where
  objName : String
  isClassObj : Bool
  isFunctionOrMethod : Bool
  isCoroutineFunction : Bool
  isGeneratorFunction : Bool
  isAsyncGenFunction : Bool
  returnsNone : Bool
  params : List Param
  deriving DecidableEq

/-- Provider: the frozen dataclass of core.py, a callable plus its scope.
Scopes are plain strings, as in the source, where the literal type is not
enforced at runtime and validate_provider_scope checks membership. -/
structure Provider where
  obj : ProviderObj
  scope : String
  deriving DecidableEq

/-- Provider.is_resource: the object is a generator function. -/
def Provider.is_resource (p : Provider) : Bool := p.obj.isGeneratorFunction

/-- Provider.is_async_resource: the object is an async generator function. -/
def Provider.is_async_resource (p : Provider) : Bool := p.obj.isAsyncGenFunction

/-- Provider.is_function: a function or method that is not a resource. -/
def Provider.is_function (p : Provider) : Bool :=
  p.obj.isFunctionOrMethod && !(p.is_resource || p.is_async_resource)

/-- Provider.is_class. -/
def Provider.is_class (p : Provider) : Bool := p.obj.isClassObj

/-- Provider.is_coroutine. -/
def Provider.is_coroutine (p : Provider) : Bool := p.obj.isCoroutineFunction

/-- Provider.parameters, as the ordered parameter list of the callable. -/
def Provider.params (p : Provider) : List Param := p.obj.params

/-- Insertion-ordered dictionary lookup (Python dict get). -/
def lookupA {α : Type} : List (Interface × α) → Interface → Option α
  | [], _ => none
  | (k, v) :: rest, i => if k = i then some v else lookupA rest i

/-- Dictionary update: replace in place if the key is present, else append;
this matches insertion-order-preserving Python dict assignment. -/
def setA {α : Type} : List (Interface × α) → Interface → α → List (Interface × α)
  | [], i, v => [(i, v)]
  | (k, w) :: rest, i, v =>
    if k = i then (i, v) :: rest else (k, w) :: setA rest i v

/-- Dictionary deletion (Python dict pop with default). -/
def removeA {α : Type} (l : List (Interface × α)) (i : Interface) :
    List (Interface × α) :=
  l.filter (fun kv => kv.1 != i)

/-- The providers dictionary of the PyxDI container. -/
abbrev Registry := List (Interface × Provider)

/-- ALLOWED_SCOPES from core.py: which dependency scopes a provider of a
given scope may use. -/
def ALLOWED_SCOPES (scope : String) : Option (List String) :=
  if scope = "singleton" then some ["singleton"]
  else if scope = "request" then some ["request", "singleton"]
  else if scope = "transient" then some ["transient", "singleton", "request"]
  else none

/-- The recognized scope literals (t.get_args of the Scope literal type). -/
def scopeValues : List String := ["transient", "singleton", "request"]

/-- Errors raised during registration, one constructor per distinct failure
of core.py.  bindingDoesNotExist is the LookupError raised by get_provider;
when raised while the match-scopes validator resolves a dependency, the spec
calls it UnknownDependency. -/
inductive RegError where
  | providerAlreadyBound : RegError
  | invalidScope : RegError
  | invalidProviderType : RegError
  | scopeMismatch : RegError
  | missingAnn : RegError
  | bindingDoesNotExist : RegError
  deriving DecidableEq

/-- PyxDI._validate_provider_scope: the scope string must be one of the
three recognized literals. -/
def validate_provider_scope (p : Provider) : Except RegError Unit :=
  if p.scope ∈ scopeValues then .ok () else .error .invalidScope

/-- PyxDI._validate_provider_type: functions and classes are accepted;
resources are accepted unless declared transient; anything else is an
invalid provider type. -/
def validate_provider_type (p : Provider) : Except RegError Unit :=
  if p.is_function || p.is_class then .ok ()
  else if p.is_resource || p.is_async_resource then
    (if p.scope = "transient" then .error .invalidProviderType else .ok ())
  else .error .invalidProviderType

/-- First loop of PyxDI._validate_provider_match_scopes: each parameter must
carry an annotation and the annotation must be bound in the registry; the
bound providers are collected in parameter order. -/
def collect_related (reg : Registry) : List Param → Except RegError (List Provider)
  | [] => .ok []
  | prm :: rest =>
    match prm.typeAnn with
    | none => .error .missingAnn
    | some a =>
      match lookupA reg a with
      | none => .error .bindingDoesNotExist
      | some sub =>
        match collect_related reg rest with
        | .error e => .error e
        | .ok subs => .ok (sub :: subs)

/-- Second loop of PyxDI._validate_provider_match_scopes: every dependency's
scope must be in ALLOWED_SCOPES of the provider's own scope (with a missing
table entry treated as the empty list). -/
def check_scopes (p : Provider) : List Provider → Except RegError Unit
  | [] => .ok ()
  | rp :: rest =>
    if rp.scope ∈ (ALLOWED_SCOPES p.scope).getD [] then check_scopes p rest
    else .error .scopeMismatch

/-- PyxDI._validate_provider_match_scopes: collect the already-registered
dependency providers, then check every compatibility edge. -/
def validate_provider_match_scopes (reg : Registry) (p : Provider) :
    Except RegError Unit :=
  match collect_related reg p.params with
  | .error e => .error e
  | .ok related => check_scopes p related

/-- The interface key actually used by register_provider: when a resource
or async-resource provider is registered with the None interface, a fresh
uuid-named Event type (here the fresh argument) is generated and used as
the key instead. -/
def effective_interface (p : Provider) (interface fresh : Interface) :
    Interface :=
  if (p.is_resource || p.is_async_resource) && interface == noneInterface
  then fresh
  else interface

/-- PyxDI.register_provider on the providers dictionary.  The registry is
threaded through explicitly; on an error it is returned as it came in.
Note the override branch: when the interface is already bound and override
is true, the provider is stored and returned immediately, before any of
the three validators runs. -/
def register_provider (reg : Registry) (interface : Interface)
    (fresh : Interface) (obj : ProviderObj) (scope : String)
    (override : Bool) : Registry × Except RegError Interface :=
  if (lookupA reg (effective_interface ⟨obj, scope⟩ interface fresh)).isSome then
    if override then
      (setA reg (effective_interface ⟨obj, scope⟩ interface fresh) ⟨obj, scope⟩,
       .ok (effective_interface ⟨obj, scope⟩ interface fresh))
    else (reg, .error .providerAlreadyBound)
  else
    match validate_provider_scope ⟨obj, scope⟩ with
    | .error e => (reg, .error e)
    | .ok _ =>
      match validate_provider_type ⟨obj, scope⟩ with
      | .error e => (reg, .error e)
      | .ok _ =>
        match validate_provider_match_scopes reg ⟨obj, scope⟩ with
        | .error e => (reg, .error e)
        | .ok _ =>
          (setA reg (effective_interface ⟨obj, scope⟩ interface fresh) ⟨obj, scope⟩,
           .ok (effective_interface ⟨obj, scope⟩ interface fresh))

/-- A plain (non-resource, non-class) function provider object with the
given name and parameters whose body returns a fresh object. -/
def plainObj (nm : String) (ps : List Param) : ProviderObj :=
  ⟨nm, false, true, false, false, false, false, ps⟩

/-- A generator-function (resource) provider object: inspect reports it both
as a function and as a generator function; is_function is derived false. -/
def resourceObj (nm : String) (ps : List Param) : ProviderObj :=
  ⟨nm, false, true, false, true, false, false, ps⟩

/-- Step one of the three-provider chain: provider p1 with no dependencies
is registered for interface 1 with scope s1. -/
def chainStep1 (s1 : String) : Registry × Except RegError Interface :=
  register_provider [] 1 9 (plainObj "p1" []) s1 false

/-- Step two: provider p2, depending on interface 1, is registered for
interface 2 with scope s2 over the registry produced by step one. -/
def chainStep2 (s1 s2 : String) : Registry × Except RegError Interface :=
  register_provider (chainStep1 s1).1 2 9 (plainObj "p2" [⟨"a", some 1⟩]) s2 false

/-- Step three: provider p3, depending on interface 2, is registered for
interface 3 with scope s3 over the registry produced by step two. -/
def chainStep3 (s1 s2 s3 : String) : Registry × Except RegError Interface :=
  register_provider (chainStep2 s1 s2).1 3 9 (plainObj "p3" [⟨"b", some 2⟩]) s3 false

/-- The dependency-scope table exactly as the claim states it:
allowed(singleton) is singleton only, allowed(request) adds singleton,
allowed(transient) is all three. -/
def claimAllowed : String → List String
  | "singleton" => ["singleton"]
  | "request" => ["request", "singleton"]
  | "transient" => ["transient", "singleton", "request"]
  | _ => []

/-- The request context object: a ScopedContext holding its instance cache
and the push-ordered teardown stack of its sync ExitStack (an entry is the
interface whose resource teardown was entered).  The async stack plays no
role in the synchronous engine modelled here. -/
structure ReqCtx where
  instances : List (Interface × Value)
  stack : List Interface
  deriving DecidableEq

/-- The mutable resolution state: the singleton context's cache and teardown
stack, the ambient request-context variable (None when no request scope is
active), the allocator for fresh object identities, and a count of factory
invocations (each call of a provider callable bumps it). -/
structure ResState where
  singletonInstances : List (Interface × Value)
  singletonStack : List Interface
  requestCtx : Option ReqCtx
  counter : Nat
  calls : Nat
  deriving DecidableEq

/-- The read-only environment of a resolution: instance resolution in
core.py reads, but never writes, the providers dictionary and the override
map. -/
structure Env where
  providers : Registry
  overrideInstances : List (Interface × Value)
  deriving DecidableEq

/-- Which scoped context owns a resolution: the container's singleton
context or the currently active request context. -/
inductive CtxRef where
  | sing
  | req
  deriving DecidableEq

/-- The instance cache of the referenced scoped context (empty when the
request variable is unset; resolution only takes the req reference while a
request context is active). -/
def readInstances (s : ResState) : CtxRef → List (Interface × Value)
  | .sing => s.singletonInstances
  | .req =>
    match s.requestCtx with
    | some c => c.instances
    | none => []

/-- Store an instance in the referenced context's cache. -/
def writeInstance (s : ResState) (r : CtxRef) (i : Interface) (v : Value) :
    ResState :=
  match r with
  | .sing => { s with singletonInstances := setA s.singletonInstances i v }
  | .req =>
    match s.requestCtx with
    | some c =>
      { s with requestCtx := some { c with instances := setA c.instances i v } }
    | none => s

/-- ExitStack.enter_context on the referenced context's sync stack: the
teardown of the resource created for interface i is appended in push order. -/
def pushStack (s : ResState) (r : CtxRef) (i : Interface) : ResState :=
  match r with
  | .sing => { s with singletonStack := s.singletonStack ++ [i] }
  | .req =>
    match s.requestCtx with
    | some c => { s with requestCtx := some { c with stack := c.stack ++ [i] } }
    | none => s

/-- Errors of the synchronous resolution path.  outOfFuel is an artefact of
the fuel-indexed interpreter, not of the source; resourceSyncStart is the
TypeError of _validate_instance_is_not_resource; invalidMode is the
TypeError raised for a coroutine provider resolved synchronously. -/
inductive ResErr where
  | outOfFuel
  | bindingDoesNotExist
  | contextNotStarted
  | resourceSyncStart
  | invalidMode
  deriving DecidableEq

/-- Invoking a provider callable (or running a generator up to its yield):
the call counter is bumped; the produced value is Python None when the
factory returns None and otherwise a freshly allocated object. -/
def invokeFactory (s : ResState) (p : Provider) : ResState × Value :=
  if p.obj.returnsNone then
    ({ s with calls := s.calls + 1 }, .pynone)
  else
    ({ s with calls := s.calls + 1, counter := s.counter + 1 }, .pyobj s.counter)

mutual

/-- PyxDI.get_instance: an override entry short-circuits everything; else
the provider is fetched and, per _get_scoped_context, a singleton provider
resolves through the singleton context, a request provider through the
active request context (ContextNotStarted when the ambient variable is
unset), and any other scope creates a fresh instance with no context. -/
def get_instance (env : Env) : Nat → ResState → Interface →
    Except ResErr (ResState × Value)
  | 0, _, _ => .error .outOfFuel
  | fuel + 1, s, i =>
    match lookupA env.overrideInstances i with
    | some v => .ok (s, v)
    | none =>
      match lookupA env.providers i with
      | none => .error .bindingDoesNotExist
      | some p =>
        if p.scope = "singleton" then
          scoped_get env fuel s .sing i
        else if p.scope = "request" then
          match s.requestCtx with
          | none => .error .contextNotStarted
          | some _ => scoped_get env fuel s .req i
        else
          create_instance env fuel s p

/-- ScopedContext.get: the cache lookup treats a stored None exactly like an
absent entry (instance = dict.get; if instance is None: recreate); on a miss
the provider is fetched again from the root and created as a resource (with
its teardown pushed on this context's stack) or as a plain instance, then
stored. -/
def scoped_get (env : Env) : Nat → ResState → CtxRef → Interface →
    Except ResErr (ResState × Value)
  | 0, _, _, _ => .error .outOfFuel
  | fuel + 1, s, r, i =>
    match lookupA (readInstances s r) i with
    | some (.pyobj n) => .ok (s, .pyobj n)
    | some .pynone | none =>
      match lookupA env.providers i with
      | none => .error .bindingDoesNotExist
      | some p =>
        if p.is_resource then
          match create_resource env fuel s r i p with
          | .error e => .error e
          | .ok (s1, v) => .ok (writeInstance s1 r i v, v)
        else
          match create_instance env fuel s p with
          | .error e => .error e
          | .ok (s1, v) => .ok (writeInstance s1 r i v, v)

/-- PyxDI.create_instance: rejects resource providers outside a started
scope context and coroutine providers in synchronous mode, then resolves
the provider's parameters recursively and calls the factory. -/
def create_instance (env : Env) : Nat → ResState → Provider →
    Except ResErr (ResState × Value)
  | 0, _, _ => .error .outOfFuel
  | fuel + 1, s, p =>
    if p.is_resource || p.is_async_resource then .error .resourceSyncStart
    else if p.is_coroutine then .error .invalidMode
    else
      match resolve_params env fuel s p.params with
      | .error e => .error e
      | .ok (s1, _args) => .ok (invokeFactory s1 p)

/-- PyxDI.create_resource: resolves the provider's parameters, runs the
generator to its yield (the setup value) and enters the context manager on
the owning context's sync stack. -/
def create_resource (env : Env) : Nat → ResState → CtxRef → Interface →
    Provider → Except ResErr (ResState × Value)
  | 0, _, _, _, _ => .error .outOfFuel
  | fuel + 1, s, r, i, p =>
    match resolve_params env fuel s p.params with
    | .error e => .error e
    | .ok (s1, _args) =>
      let sv := invokeFactory s1 p
      .ok (pushStack sv.1 r i, sv.2)

/-- PyxDI._get_provider_arguments: each parameter's annotation is resolved
through get_instance in declaration order; a missing annotation key is not
in the providers dictionary, so the lookup fails as in the source. -/
def resolve_params (env : Env) : Nat → ResState → List Param →
    Except ResErr (ResState × List Value)
  | 0, _, _ => .error .outOfFuel
  | _ + 1, s, [] => .ok (s, [])
  | fuel + 1, s, prm :: rest =>
    match prm.typeAnn with
    | none => .error .bindingDoesNotExist
    | some a =>
      match get_instance env fuel s a with
      | .error e => .error e
      | .ok (s1, v) =>
        match resolve_params env fuel s1 rest with
        | .error e => .error e
        | .ok (s2, vs) => .ok (s2, v :: vs)

end

/-- The full container state: the providers dictionary, the override map and
the resolution state of the contexts. -/
structure DIState where
  providers : Registry
  overrideInstances : List (Interface × Value)
  res : ResState
  deriving DecidableEq

/-- The read-only view of a container state taken by resolution. -/
def DIState.env (s : DIState) : Env := ⟨s.providers, s.overrideInstances⟩

/-- A fresh resolution state: empty caches and stacks, no active request
context. -/
def emptyRes : ResState := ⟨[], [], none, 0, 0⟩

/-- A fresh container. -/
def emptyDI : DIState := ⟨[], [], emptyRes⟩

/-- PyxDI.register_provider acting on the container state: it touches only
the providers dictionary. -/
def register_provider_di (s : DIState) (interface fresh : Interface)
    (obj : ProviderObj) (scope : String) (override : Bool) :
    DIState × Except RegError Interface :=
  let rr := register_provider s.providers interface fresh obj scope override
  ({ s with providers := rr.1 }, rr.2)

/-- ScopedContext.delete on the referenced context: evicts the cached
instance, leaving stacks alone. -/
def scoped_delete (s : ResState) (r : CtxRef) (i : Interface) : ResState :=
  match r with
  | .sing => { s with singletonInstances := removeA s.singletonInstances i }
  | .req =>
    match s.requestCtx with
    | some c =>
      { s with requestCtx := some { c with instances := removeA c.instances i } }
    | none => s

/-- PyxDI.unregister_provider: unknown interfaces fail; otherwise the cached
instance is evicted from the provider's scoped context (the LookupError of
_get_request_context is swallowed when no request context is active, and a
transient provider has no owning context), then the provider entry is
removed. -/
def unregister_provider (s : DIState) (i : Interface) :
    DIState × Except RegError Unit :=
  match lookupA s.providers i with
  | none => (s, .error .bindingDoesNotExist)
  | some p =>
    let res1 :=
      if p.scope = "singleton" then scoped_delete s.res .sing i
      else if p.scope = "request" then
        match s.res.requestCtx with
        | none => s.res
        | some _ => scoped_delete s.res .req i
      else s.res
    ({ s with providers := removeA s.providers i, res := res1 }, .ok ())

/-- Entering PyxDI.override(interface, instance), up to and including its
yield: the interface must already be bound, then the instance is installed
in the override map. -/
def override_enter (s : DIState) (i : Interface) (v : Value) :
    Except RegError DIState :=
  if (lookupA s.providers i).isSome then
    .ok { s with overrideInstances := setA s.overrideInstances i v }
  else .error .bindingDoesNotExist

/-- Leaving the override block normally: the statement after the yield runs
and deletes the override entry. -/
def override_exit_normal (s : DIState) (i : Interface) : DIState :=
  { s with overrideInstances := removeA s.overrideInstances i }

/-- Leaving the override block because the wrapped code raised: the
exception propagates out of the yield and, the generator having no
try/finally, the deletion after the yield never runs — the container state
is unchanged. -/
def override_exit_raise (s : DIState) : DIState := s

/-- Entering PyxDI._request_context: a fresh RequestContext is stored in the
ambient variable; the returned token is the variable's prior value. -/
def request_context_enter (s : DIState) : DIState × Option ReqCtx :=
  ({ s with res := { s.res with requestCtx := some ⟨[], []⟩ } },
   s.res.requestCtx)

/-- Leaving PyxDI._request_context normally: the statement after the yield
resets the ambient variable to the saved token, then the with-block closes
the context (draining its stack); the context object is dropped. -/
def request_context_exit_normal (s : DIState) (token : Option ReqCtx) :
    DIState :=
  { s with res := { s.res with requestCtx := token } }

/-- Leaving PyxDI._request_context because the wrapped code raised: the
with-block closes the context (its ExitStack is drained), the exception
propagates, and the reset after the yield never runs — the ambient variable
keeps pointing at the ended context, whose instance cache the close does
not clear. -/
def request_context_exit_raise (s : DIState) : DIState :=
  let closed := s.res.requestCtx.map (fun c => { c with stack := ([] : List Interface) })
  { s with res := { s.res with requestCtx := closed } }

/-- ScopedContext.close on the singleton context (PyxDI.close): the sync
ExitStack unwinds its entered contexts last-in first-out; the returned list
is the order in which the teardowns run.  The instance cache is not
touched. -/
def singleton_close (s : ResState) : ResState × List Interface :=
  ({ s with singletonStack := [] }, s.singletonStack.reverse)

/-- Resolve a list of interfaces in order, requiring every resolution to
succeed. -/
def resolve_each (env : Env) (fuel : Nat) : ResState → List Interface →
    Option ResState
  | s, [] => some s
  | s, i :: rest =>
    match get_instance env fuel s i with
    | .ok (s1, _) => resolve_each env fuel s1 rest
    | .error _ => none

/-- Resolve an interface on the container, keeping the state on success and
leaving it as was on failure. -/
def try_resolve (s : DIState) (fuel : Nat) (i : Interface) : DIState :=
  match get_instance s.env fuel s.res i with
  | .ok (r1, _) => { s with res := r1 }
  | .error _ => s

/-- One complete request scope: enter, resolve the given interfaces inside
the scope, and leave normally. -/
def scope_round (fuel : Nat) (s : DIState) (is : List Interface) : DIState :=
  let et := request_context_enter s
  let s2 := is.foldl (fun acc i => try_resolve acc fuel i) et.1
  request_context_exit_normal s2 et.2

/-- A sequence of complete request scopes. -/
def scope_rounds (fuel : Nat) (s : DIState) : List (List Interface) → DIState
  | [] => s
  | is :: rest => scope_rounds fuel (scope_round fuel s is) rest

deriving instance DecidableEq for Except

theorem lookupA_setA_self {α : Type} (l : List (Interface × α)) (i : Interface)
    (v : α) : lookupA (setA l i v) i = some v := by
  induction l with
  | nil => simp [setA, lookupA]
  | cons kv rest ih =>
    obtain ⟨k, w⟩ := kv
    by_cases h : k = i
    · simp [setA, lookupA, h]
    · simp [setA, lookupA, h, ih]

theorem lookupA_setA_ne {α : Type} (l : List (Interface × α)) (i j : Interface)
    (v : α) (h : j ≠ i) : lookupA (setA l i v) j = lookupA l j := by
  induction l with
  | nil => simp [setA, lookupA, Ne.symm h]
  | cons kv rest ih =>
    obtain ⟨k, w⟩ := kv
    by_cases hk : k = i
    · subst hk
      simp [setA, lookupA, Ne.symm h]
    · simp [setA, lookupA, hk, ih]

theorem lookupA_removeA_self {α : Type} (l : List (Interface × α))
    (i : Interface) : lookupA (removeA l i) i = none := by
  induction l with
  | nil => simp [removeA, lookupA]
  | cons kv rest ih =>
    obtain ⟨k, w⟩ := kv
    by_cases hk : k = i
    · simpa [removeA, lookupA, hk] using ih
    · simpa [removeA, lookupA, hk] using ih

/-- Every outcome of register_provider is either a successful insertion or
an error that returns the providers dictionary untouched. -/
theorem register_provider_atomic_aux (reg : Registry) (i fresh : Interface)
    (obj : ProviderObj) (scope : String) (ov : Bool) :
    (register_provider reg i fresh obj scope ov).1 = reg ∨
    ∃ j, (register_provider reg i fresh obj scope ov).2 = .ok j := by
  simp only [register_provider]
  repeat' split
  all_goals first
    | exact .inl rfl
    | exact .inr ⟨_, rfl⟩

/-- C1: in a three-provider dependency chain p1 ← p2 ← p3, over all 27 scope
combinations, registering p1 always succeeds, registering p2 succeeds
exactly when p1's scope is in allowed(p2's scope) and fails with
ScopeMismatch otherwise, and — whenever p2 was registered — registering p3
succeeds exactly when p2's scope is in allowed(p3's scope) and fails with
ScopeMismatch otherwise, where allowed(singleton) is the singleton set,
allowed(request) adds singleton, and allowed(transient) is all three. -/
theorem c1_scope_chain :
    ∀ s1 ∈ scopeValues, ∀ s2 ∈ scopeValues, ∀ s3 ∈ scopeValues,
      (chainStep1 s1).2 = .ok 1 ∧
      ((chainStep2 s1 s2).2 = .ok 2 ↔ s1 ∈ claimAllowed s2) ∧
      ((chainStep2 s1 s2).2 ≠ .ok 2 →
        (chainStep2 s1 s2).2 = .error .scopeMismatch) ∧
      ((chainStep2 s1 s2).2 = .ok 2 →
        (((chainStep3 s1 s2 s3).2 = .ok 3 ↔ s2 ∈ claimAllowed s3) ∧
          ((chainStep3 s1 s2 s3).2 ≠ .ok 3 →
            (chainStep3 s1 s2 s3).2 = .error .scopeMismatch))) := by
  decide

/-- C1 witness: instantiating the chain property at the combination
(request, singleton, transient): a request-scoped dependency is allowed for
a singleton... rather, registering the singleton-scoped p2 over the
request-scoped p1 fails with ScopeMismatch, and the transient combination
registers p2 over a singleton p1 successfully. -/
theorem c1_scope_chain_witness :
    ((chainStep2 "singleton" "request").2 = .ok 2 ↔
      "singleton" ∈ claimAllowed "request") ∧
    (chainStep2 "request" "singleton").2 = .error .scopeMismatch := by
  refine ⟨(c1_scope_chain "singleton" (by decide) "request" (by decide)
    "transient" (by decide)).2.1, ?_⟩
  have h := c1_scope_chain "request" (by decide) "singleton" (by decide)
    "transient" (by decide)
  exact h.2.2.1 (by decide)

/-- A valid paramless provider object used by concrete scenarios. -/
def goodObj : ProviderObj := plainObj "good" []

/-- Another paramless provider object, registered with an illegal scope in
the override counterexample. -/
def badObj : ProviderObj := plainObj "bad" []

/-- A registry holding a validly registered provider for interface 1. -/
def c3Reg0 : Registry := (register_provider [] 1 9 goodObj "singleton" false).1

/-- C3 counterexample: over a registry where interface 1 is already bound, a
register call with override = true and the illegal scope "bogus" succeeds
and stores the provider, although the scope validator rejects exactly that
provider — so no validation ran on the replacement path, contradicting the
claim that every inserting register call runs all three validations. -/
theorem c3_override_skips_validation_cex :
    (register_provider c3Reg0 1 9 badObj "bogus" true).2 = .ok 1 ∧
    lookupA (register_provider c3Reg0 1 9 badObj "bogus" true).1 1 =
      some ⟨badObj, "bogus"⟩ ∧
    validate_provider_scope ⟨badObj, "bogus"⟩ = .error .invalidScope := by
  decide

/-- The override-replacement branch of register_provider: when the
interface (not the None token) is already bound and override is true, the
provider is stored immediately and no validator runs. -/
theorem register_override_replaces (reg : Registry) (i fresh : Interface)
    (obj : ProviderObj) (scope : String)
    (hne : i ≠ noneInterface)
    (hsome : (lookupA reg i).isSome = true) :
    register_provider reg i fresh obj scope true =
      (setA reg i ⟨obj, scope⟩, .ok i) := by
  have hkey : effective_interface ⟨obj, scope⟩ i fresh = i := by
    simp [effective_interface, hne]
  simp [register_provider, hkey, hsome]

/-- C3 (amended): a register call that stores a provider under an interface
not previously bound runs all three validations (which therefore all pass)
before the insertion, but a call with override = true that replaces an
existing binding skips all validation and stores the provider directly. -/
theorem c3_register_validations_amended :
    (∀ (reg : Registry) (i fresh j : Interface) (obj : ProviderObj)
        (scope : String) (ov : Bool),
      (register_provider reg i fresh obj scope ov).2 = .ok j →
      lookupA reg j = none →
      validate_provider_scope ⟨obj, scope⟩ = .ok () ∧
      validate_provider_type ⟨obj, scope⟩ = .ok () ∧
      validate_provider_match_scopes reg ⟨obj, scope⟩ = .ok ()) ∧
    (∀ (reg : Registry) (i fresh : Interface) (obj : ProviderObj)
        (scope : String),
      i ≠ noneInterface →
      (lookupA reg i).isSome = true →
      register_provider reg i fresh obj scope true =
        (setA reg i ⟨obj, scope⟩, .ok i)) := by
  constructor
  · intro reg i fresh j obj scope ov hok hnew
    simp only [register_provider] at hok
    by_cases hsome :
        (lookupA reg (effective_interface ⟨obj, scope⟩ i fresh)).isSome = true
    · rw [if_pos hsome] at hok
      by_cases hov : ov = true
      · rw [if_pos hov] at hok
        simp only [Except.ok.injEq] at hok
        rw [hok, hnew] at hsome
        simp at hsome
      · rw [if_neg hov] at hok
        simp at hok
    · rw [if_neg hsome] at hok
      rcases hv1 : validate_provider_scope ⟨obj, scope⟩ with e1 | u1
      · rw [hv1] at hok
        simp at hok
      · rw [hv1] at hok
        rcases hv2 : validate_provider_type ⟨obj, scope⟩ with e2 | u2
        · rw [hv2] at hok
          simp at hok
        · rw [hv2] at hok
          rcases hv3 : validate_provider_match_scopes reg ⟨obj, scope⟩ with e3 | u3
          · rw [hv3] at hok
            simp at hok
          · cases u1
            cases u2
            cases u3
            exact ⟨rfl, rfl, rfl⟩
  · intro reg i fresh obj scope hne hsome
    exact register_override_replaces reg i fresh obj scope hne hsome

/-- C3 witness: the fresh-insertion part instantiated at the registration of
goodObj (its validations pass), and the replacement part instantiated at the
override = true call that stores badObj with its bogus scope. -/
theorem c3_register_validations_amended_witness :
    validate_provider_scope ⟨goodObj, "singleton"⟩ = .ok () ∧
    register_provider c3Reg0 1 9 badObj "bogus" true =
      (setA c3Reg0 1 ⟨badObj, "bogus"⟩, .ok 1) :=
  ⟨(c3_register_validations_amended.1 [] 1 9 1 goodObj "singleton" false
      (by decide) (by decide)).1,
   c3_register_validations_amended.2 c3Reg0 1 9 badObj "bogus"
      (by decide) (by decide)⟩

/-- C7: every registration-time error aborts registration atomically — when
register_provider reports an error of any kind (already bound, invalid
scope, invalid provider type, scope mismatch, missing annotation, unknown
dependency), the returned providers dictionary is exactly the input
dictionary, so the failing provider was not inserted. -/
theorem c7_register_error_atomic (reg : Registry) (i fresh : Interface)
    (obj : ProviderObj) (scope : String) (ov : Bool) (e : RegError)
    (h : (register_provider reg i fresh obj scope ov).2 = .error e) :
    (register_provider reg i fresh obj scope ov).1 = reg := by
  rcases register_provider_atomic_aux reg i fresh obj scope ov with h1 | ⟨j, h2⟩
  · exact h1
  · rw [h2] at h
    cases h

/-- C7 witness: a ProviderAlreadyBound failure (override = false over a
bound interface) leaves the registry exactly as it was. -/
theorem c7_register_error_atomic_witness :
    (register_provider c3Reg0 1 9 goodObj "singleton" false).2 =
      .error .providerAlreadyBound ∧
    (register_provider c3Reg0 1 9 goodObj "singleton" false).1 = c3Reg0 :=
  ⟨by decide,
   c7_register_error_atomic c3Reg0 1 9 goodObj "singleton" false
     .providerAlreadyBound (by decide)⟩

/-- A container with a singleton provider registered for interface 1. -/
def c2DI0 : DIState :=
  (register_provider_di emptyDI 1 9 (plainObj "f" []) "singleton" false).1

/-- The container after entering override(1, pyobj 100). -/
def c2DI1 : DIState := { c2DI0 with overrideInstances := [(1, .pyobj 100)] }

/-- C2: the code contradicts the claim on the exceptional exit path of the
override block.  Entering the override installs the instance and resolve
returns it; when the wrapped block raises, the deletion after the yield
never runs, so the override entry is still installed afterwards and resolve
still returns the overriding instance rather than the provider's own value.
Only the normal exit removes the entry, after which resolve returns the
provider's own, freshly created value. -/
theorem c2_override_leak_on_raise :
    override_enter c2DI0 1 (.pyobj 100) = .ok c2DI1 ∧
    get_instance c2DI1.env 4 c2DI1.res 1 = .ok (c2DI1.res, .pyobj 100) ∧
    lookupA (override_exit_raise c2DI1).overrideInstances 1 =
      some (.pyobj 100) ∧
    get_instance (override_exit_raise c2DI1).env 4
        (override_exit_raise c2DI1).res 1 = .ok (c2DI1.res, .pyobj 100) ∧
    lookupA (override_exit_normal c2DI1 1).overrideInstances 1 = none ∧
    get_instance (override_exit_normal c2DI1 1).env 4
        (override_exit_normal c2DI1 1).res 1 =
      .ok (⟨[(1, .pyobj 0)], [], none, 1, 1⟩, .pyobj 0) := by
  decide

/-- A container with a request-scoped provider registered for interface 1. -/
def c8DI0 : DIState :=
  (register_provider_di emptyDI 1 9 (plainObj "svc" []) "request" false).1

/-- The container after entering a request scope on c8DI0. -/
def c8DI1 : DIState := (request_context_enter c8DI0).1

/-- The container after resolving interface 1 inside the request scope. -/
def c8DI2 : DIState := try_resolve c8DI1 4 1

/-- C8: the code contradicts the claim on the exceptional exit path of the
request scope.  The prior value of the ambient handle is none; after the
wrapped block raises, the reset after the yield never runs, so the handle
still points at the ended request context — whose instance cache the close
did not clear — and a later resolution of the request-scoped interface
succeeds against the ended context, returning its cached instance.  Only
the normal exit reverts the handle to its prior value. -/
theorem c8_request_handle_leak_on_raise :
    (request_context_enter c8DI0).2 = none ∧
    (request_context_exit_raise c8DI2).res.requestCtx =
      some ⟨[(1, .pyobj 0)], []⟩ ∧
    get_instance (request_context_exit_raise c8DI2).env 4
        (request_context_exit_raise c8DI2).res 1 =
      .ok ((request_context_exit_raise c8DI2).res, .pyobj 0) ∧
    (request_context_exit_normal c8DI2
        (request_context_enter c8DI0).2).res.requestCtx = none := by
  decide

/-- Resolution of a request-scoped interface fails with ContextNotStarted
whenever the ambient request variable is unset and no override entry
shortcuts the lookup. -/
theorem get_instance_request_not_started (env : Env) (fuel : Nat)
    (s : ResState) (i : Interface) (p : Provider)
    (hov : lookupA env.overrideInstances i = none)
    (hp : lookupA env.providers i = some p)
    (hscope : p.scope = "request")
    (hctx : s.requestCtx = none) :
    get_instance env (fuel + 1) s i = .error .contextNotStarted := by
  simp [get_instance, hov, hp, hscope, hctx]

/-- try_resolve leaves the providers dictionary untouched. -/
theorem try_resolve_providers (s : DIState) (fuel : Nat) (i : Interface) :
    (try_resolve s fuel i).providers = s.providers := by
  unfold try_resolve
  split <;> rfl

/-- try_resolve leaves the override map untouched. -/
theorem try_resolve_overrides (s : DIState) (fuel : Nat) (i : Interface) :
    (try_resolve s fuel i).overrideInstances = s.overrideInstances := by
  unfold try_resolve
  split <;> rfl

/-- The resolutions inside a request scope leave the providers dictionary
untouched. -/
theorem foldl_try_resolve_providers (fuel : Nat) (is : List Interface) :
    ∀ s : DIState,
      (is.foldl (fun acc i => try_resolve acc fuel i) s).providers =
        s.providers := by
  induction is with
  | nil => intro s; rfl
  | cons i rest ih =>
    intro s
    rw [List.foldl_cons, ih, try_resolve_providers]

/-- The resolutions inside a request scope leave the override map
untouched. -/
theorem foldl_try_resolve_overrides (fuel : Nat) (is : List Interface) :
    ∀ s : DIState,
      (is.foldl (fun acc i => try_resolve acc fuel i) s).overrideInstances =
        s.overrideInstances := by
  induction is with
  | nil => intro s; rfl
  | cons i rest ih =>
    intro s
    rw [List.foldl_cons, ih, try_resolve_overrides]

/-- A complete request scope restores the ambient request variable to its
value from before the scope was entered. -/
theorem scope_round_requestCtx (fuel : Nat) (s : DIState)
    (is : List Interface) :
    (scope_round fuel s is).res.requestCtx = s.res.requestCtx := rfl

/-- A complete request scope leaves the providers dictionary untouched. -/
theorem scope_round_providers (fuel : Nat) (s : DIState)
    (is : List Interface) :
    (scope_round fuel s is).providers = s.providers := by
  unfold scope_round request_context_exit_normal
  simp [foldl_try_resolve_providers, request_context_enter]

/-- A complete request scope leaves the override map untouched. -/
theorem scope_round_overrides (fuel : Nat) (s : DIState)
    (is : List Interface) :
    (scope_round fuel s is).overrideInstances = s.overrideInstances := by
  unfold scope_round request_context_exit_normal
  simp [foldl_try_resolve_overrides, request_context_enter]

/-- Any sequence of complete request scopes restores the ambient request
variable to its initial value. -/
theorem scope_rounds_requestCtx (fuel : Nat) (rounds : List (List Interface)) :
    ∀ s : DIState,
      (scope_rounds fuel s rounds).res.requestCtx = s.res.requestCtx := by
  induction rounds with
  | nil => intro s; rfl
  | cons is rest ih =>
    intro s
    rw [scope_rounds, ih, scope_round_requestCtx]

/-- Any sequence of complete request scopes leaves the providers dictionary
untouched. -/
theorem scope_rounds_providers (fuel : Nat) (rounds : List (List Interface)) :
    ∀ s : DIState,
      (scope_rounds fuel s rounds).providers = s.providers := by
  induction rounds with
  | nil => intro s; rfl
  | cons is rest ih =>
    intro s
    rw [scope_rounds, ih, scope_round_providers]

/-- Any sequence of complete request scopes leaves the override map
untouched. -/
theorem scope_rounds_overrides (fuel : Nat) (rounds : List (List Interface)) :
    ∀ s : DIState,
      (scope_rounds fuel s rounds).overrideInstances = s.overrideInstances := by
  induction rounds with
  | nil => intro s; rfl
  | cons is rest ih =>
    intro s
    rw [scope_rounds, ih, scope_round_overrides]

/-- C6: resolving a request-scoped interface when no request scope is
active fails with ContextNotStarted — for every request-scoped provider
(with no override installed for it), and regardless of how many request
scopes were previously entered and exited, since every completed
enter/exit round restores the ambient request variable to its prior
value. -/
theorem c6_request_context_not_started (fuel fuel2 : Nat) (s : DIState)
    (rounds : List (List Interface)) (i : Interface) (p : Provider)
    (hctx : s.res.requestCtx = none)
    (hov : lookupA s.overrideInstances i = none)
    (hp : lookupA s.providers i = some p)
    (hscope : p.scope = "request") :
    get_instance (scope_rounds fuel s rounds).env (fuel2 + 1)
      (scope_rounds fuel s rounds).res i = .error .contextNotStarted := by
  apply get_instance_request_not_started _ _ _ _ p
  · show lookupA (scope_rounds fuel s rounds).overrideInstances i = none
    rw [scope_rounds_overrides]
    exact hov
  · show lookupA (scope_rounds fuel s rounds).providers i = some p
    rw [scope_rounds_providers]
    exact hp
  · exact hscope
  · rw [scope_rounds_requestCtx]
    exact hctx

/-- C6 witness: after one complete request scope that resolved interface 1,
resolving the request-scoped interface 1 again (outside any scope) fails
with ContextNotStarted. -/
theorem c6_request_context_not_started_witness :
    get_instance (scope_rounds 4 c8DI0 [[1]]).env 4
      (scope_rounds 4 c8DI0 [[1]]).res 1 = .error .contextNotStarted :=
  c6_request_context_not_started 4 3 c8DI0 [[1]] 1
    ⟨plainObj "svc" [], "request"⟩ rfl rfl (by decide) rfl

/-- Invoking a factory does not change the singleton stack. -/
theorem invokeFactory_singletonStack (s : ResState) (p : Provider) :
    (invokeFactory s p).1.singletonStack = s.singletonStack := by
  unfold invokeFactory
  split <;> rfl

/-- Invoking a factory does not change the singleton cache. -/
theorem invokeFactory_singletonInstances (s : ResState) (p : Provider) :
    (invokeFactory s p).1.singletonInstances = s.singletonInstances := by
  unfold invokeFactory
  split <;> rfl

/-- Invoking a factory does not change the ambient request context. -/
theorem invokeFactory_requestCtx (s : ResState) (p : Provider) :
    (invokeFactory s p).1.requestCtx = s.requestCtx := by
  unfold invokeFactory
  split <;> rfl

/-- Invoking a factory bumps the call counter by one. -/
theorem invokeFactory_calls (s : ResState) (p : Provider) :
    (invokeFactory s p).1.calls = s.calls + 1 := by
  unfold invokeFactory
  split <;> rfl

/-- Resolving a paramless singleton resource provider that is not yet
cached succeeds, appends the interface's teardown to the singleton stack
(creation order) and stores the setup value in the cache. -/
theorem resolve_resource_step (env : Env) (fuel : Nat) (s : ResState)
    (i : Interface) (p : Provider)
    (hov : lookupA env.overrideInstances i = none)
    (hp : lookupA env.providers i = some p)
    (hscope : p.scope = "singleton")
    (hres : p.is_resource = true)
    (hparams : p.params = [])
    (hcache : lookupA s.singletonInstances i = none) :
    ∃ v s1,
      get_instance env (fuel + 4) s i = .ok (s1, v) ∧
      s1.singletonStack = s.singletonStack ++ [i] ∧
      s1.singletonInstances = setA s.singletonInstances i v := by
  refine ⟨(invokeFactory s p).2,
    writeInstance (pushStack (invokeFactory s p).1 .sing i) .sing i
      (invokeFactory s p).2, ?_, ?_, ?_⟩
  · simp [get_instance, scoped_get, create_resource, resolve_params,
      hov, hp, hscope, hres, hparams, hcache, readInstances]
  · simp [writeInstance, pushStack, invokeFactory_singletonStack]
  · simp [writeInstance, pushStack, invokeFactory_singletonInstances]

/-- Resolving a list of distinct, uncached, paramless singleton resource
providers in order succeeds and appends their teardowns to the singleton
stack in exactly that order. -/
theorem resolve_each_resources (env : Env) (fuel : Nat) :
    ∀ (is : List Interface) (s : ResState),
      is.Nodup →
      (∀ i ∈ is, ∃ p, lookupA env.providers i = some p ∧
        p.scope = "singleton" ∧ p.is_resource = true ∧ p.params = []) →
      (∀ i ∈ is, lookupA env.overrideInstances i = none) →
      (∀ i ∈ is, lookupA s.singletonInstances i = none) →
      ∃ s1, resolve_each env (fuel + 4) s is = some s1 ∧
        s1.singletonStack = s.singletonStack ++ is := by
  intro is
  induction is with
  | nil =>
    intro s _ _ _ _
    exact ⟨s, rfl, by simp⟩
  | cons i rest ih =>
    intro s hnd hprov hov hcache
    obtain ⟨p, hp, hscope, hres, hparams⟩ := hprov i (by simp)
    obtain ⟨v, s1, hget, hstack, hinst⟩ :=
      resolve_resource_step env fuel s i p (hov i (by simp)) hp hscope hres
        hparams (hcache i (by simp))
    have hne : ∀ j ∈ rest, j ≠ i := by
      intro j hj hji
      exact (List.nodup_cons.mp hnd).1 (hji ▸ hj)
    have hrest : ∀ j ∈ rest, lookupA s1.singletonInstances j = none := by
      intro j hj
      rw [hinst, lookupA_setA_ne _ _ _ _ (hne j hj)]
      exact hcache j (List.mem_cons_of_mem _ hj)
    obtain ⟨s2, hrun, hstack2⟩ := ih s1 (List.Nodup.of_cons hnd)
      (fun j hj => hprov j (List.mem_cons_of_mem _ hj))
      (fun j hj => hov j (List.mem_cons_of_mem _ hj)) hrest
    refine ⟨s2, ?_, ?_⟩
    · simp [resolve_each, hget, hrun]
    · rw [hstack2, hstack]
      simp

/-- C4: resolving resource providers in registration order pushes their
teardowns onto the owning (singleton) context's sync stack in creation
order, and closing the context drains that stack in exact reverse push
order — for every sequence of distinct resources; in particular resolving
A then B and then closing runs B's teardown strictly before A's. -/
theorem c4_resource_teardown_lifo (env : Env) (fuel : Nat)
    (is : List Interface) (s : ResState)
    (hnd : is.Nodup)
    (hprov : ∀ i ∈ is, ∃ p, lookupA env.providers i = some p ∧
      p.scope = "singleton" ∧ p.is_resource = true ∧ p.params = [])
    (hov : ∀ i ∈ is, lookupA env.overrideInstances i = none)
    (hcache : ∀ i ∈ is, lookupA s.singletonInstances i = none)
    (hstack : s.singletonStack = []) :
    ∃ s1, resolve_each env (fuel + 4) s is = some s1 ∧
      s1.singletonStack = is ∧
      (singleton_close s1).2 = is.reverse := by
  obtain ⟨s1, hrun, hs⟩ := resolve_each_resources env fuel is s hnd hprov hov hcache
  refine ⟨s1, hrun, ?_, ?_⟩
  · rw [hs, hstack]
    simp
  · simp [singleton_close, hs, hstack]

/-- An environment with resource providers A (interface 1) and B
(interface 2), both singleton scoped. -/
def c4Env : Env :=
  ⟨[(1, ⟨resourceObj "a" [], "singleton"⟩),
    (2, ⟨resourceObj "b" [], "singleton"⟩)], []⟩

/-- C4 witness: resolving A then B pushes the sync stack [A, B] and closing
the singleton context runs the teardowns in order [B, A]. -/
theorem c4_resource_teardown_lifo_witness :
    ∃ s1, resolve_each c4Env 4 emptyRes [1, 2] = some s1 ∧
      s1.singletonStack = [1, 2] ∧
      (singleton_close s1).2 = [2, 1] := by
  have h := c4_resource_teardown_lifo c4Env 0 [1, 2] emptyRes (by decide)
    (by
      intro i hi
      simp at hi
      rcases hi with rfl | rfl
      · exact ⟨⟨resourceObj "a" [], "singleton"⟩, rfl, rfl, rfl, rfl⟩
      · exact ⟨⟨resourceObj "b" [], "singleton"⟩, rfl, rfl, rfl, rfl⟩)
    (by
      intro i hi
      rfl)
    (by
      intro i hi
      rfl)
    rfl
  simpa using h

/-- The value produced by create_instance is None exactly when the provider
factory returns None. -/
theorem create_instance_value (env : Env) (fuel : Nat) (s : ResState)
    (p : Provider) (s1 : ResState) (v : Value)
    (h : create_instance env fuel s p = .ok (s1, v)) :
    v = .pynone ↔ p.obj.returnsNone = true := by
  cases fuel with
  | zero => exact Except.noConfusion h
  | succ f =>
    simp only [create_instance] at h
    split at h
    · exact Except.noConfusion h
    · split at h
      · exact Except.noConfusion h
      · split at h
        · exact Except.noConfusion h
        · next s2 args heq =>
          simp only [Except.ok.injEq] at h
          have hv := congrArg Prod.snd h
          simp only at hv
          subst hv
          unfold invokeFactory
          split
          · next hret => simp [hret]
          · next hret => simp [hret]

/-- The setup value produced by create_resource is None exactly when the
provider generator yields None. -/
theorem create_resource_value (env : Env) (fuel : Nat) (s : ResState)
    (r : CtxRef) (i : Interface) (p : Provider) (s1 : ResState) (v : Value)
    (h : create_resource env fuel s r i p = .ok (s1, v)) :
    v = .pynone ↔ p.obj.returnsNone = true := by
  cases fuel with
  | zero => exact Except.noConfusion h
  | succ f =>
    simp only [create_resource] at h
    split at h
    · exact Except.noConfusion h
    · next s2 args heq =>
      simp only [Except.ok.injEq] at h
      have hv := congrArg Prod.snd h
      simp only at hv
      subst hv
      unfold invokeFactory
      split
      · next hret => simp [hret]
      · next hret => simp [hret]

/-- After a successful singleton-context get, the cache holds exactly the
returned value, and a returned None certifies that the registered provider
is a returns-None factory. -/
theorem scoped_get_sing_post (env : Env) (fuel : Nat) (s : ResState)
    (i : Interface) (s1 : ResState) (v : Value)
    (h : scoped_get env fuel s .sing i = .ok (s1, v)) :
    lookupA s1.singletonInstances i = some v ∧
    (v = .pynone → ∃ p, lookupA env.providers i = some p ∧
      p.obj.returnsNone = true) := by
  cases fuel with
  | zero => exact Except.noConfusion h
  | succ f =>
    simp only [scoped_get, readInstances] at h
    split at h
    · next n heq =>
      simp only [Except.ok.injEq, Prod.mk.injEq] at h
      obtain ⟨hs, hv⟩ := h
      subst hs
      subst hv
      exact ⟨heq, by simp⟩
    all_goals
      split at h
      · exact Except.noConfusion h
      · next p hp =>
        split at h
        · split at h
          · exact Except.noConfusion h
          · next s2 v2 heq2 =>
            simp only [Except.ok.injEq, Prod.mk.injEq] at h
            obtain ⟨hs, hv⟩ := h
            subst hv
            constructor
            · rw [← hs]
              simp [writeInstance, lookupA_setA_self]
            · intro hvn
              exact ⟨p, hp,
                (create_resource_value env f s .sing i p s2 v2 heq2).mp hvn⟩
        · split at h
          · exact Except.noConfusion h
          · next s2 v2 heq2 =>
            simp only [Except.ok.injEq, Prod.mk.injEq] at h
            obtain ⟨hs, hv⟩ := h
            subst hv
            constructor
            · rw [← hs]
              simp [writeInstance, lookupA_setA_self]
            · intro hvn
              exact ⟨p, hp,
                (create_instance_value env f s p s2 v2 heq2).mp hvn⟩

/-- A scoped-context get whose cache holds a real object returns that
object and leaves the state unchanged. -/
theorem scoped_get_hit (env : Env) (fuel : Nat) (s : ResState) (r : CtxRef)
    (i : Interface) (n : Nat)
    (hcache : lookupA (readInstances s r) i = some (.pyobj n)) :
    scoped_get env (fuel + 1) s r i = .ok (s, .pyobj n) := by
  simp [scoped_get, hcache]

/-- A singleton-context get over a returns-None provider yields None
whenever the cache holds no real object for the interface (stored None is
treated as a miss and the factory produces None again). -/
theorem scoped_get_sing_value_none (env : Env) (fuel : Nat) (s : ResState)
    (i : Interface) (s1 : ResState) (v : Value) (p : Provider)
    (hp : lookupA env.providers i = some p)
    (hret : p.obj.returnsNone = true)
    (hcache : lookupA s.singletonInstances i = some .pynone ∨
      lookupA s.singletonInstances i = none)
    (h : scoped_get env fuel s .sing i = .ok (s1, v)) :
    v = .pynone := by
  cases fuel with
  | zero => exact Except.noConfusion h
  | succ f =>
    rcases hcache with hc | hc
    all_goals
      simp only [scoped_get, readInstances, hc, hp] at h
      split at h
      · split at h
        · exact Except.noConfusion h
        · next s2 v2 heq2 =>
          simp only [Except.ok.injEq, Prod.mk.injEq] at h
          obtain ⟨hs, hv⟩ := h
          subst hv
          exact (create_resource_value env f s .sing i p s2 v2 heq2).mpr hret
      · split at h
        · exact Except.noConfusion h
        · next s2 v2 heq2 =>
          simp only [Except.ok.injEq, Prod.mk.injEq] at h
          obtain ⟨hs, hv⟩ := h
          subst hv
          exact (create_instance_value env f s p s2 v2 heq2).mpr hret

/-- C5: for a singleton-scoped interface with a registered provider (and no
override installed), two successive resolutions return the same instance:
either the first resolution cached a real object which the second returns
unchanged from the cache, or the provider is a returns-None factory and
both resolutions return the None object. -/
theorem c5_singleton_identity (env : Env) (f1 f2 : Nat) (s s1 s2 : ResState)
    (i : Interface) (p : Provider) (v w : Value)
    (hov : lookupA env.overrideInstances i = none)
    (hp : lookupA env.providers i = some p)
    (hscope : p.scope = "singleton")
    (h1 : get_instance env f1 s i = .ok (s1, v))
    (h2 : get_instance env f2 s1 i = .ok (s2, w)) :
    w = v := by
  cases f1 with
  | zero => exact Except.noConfusion h1
  | succ g1 =>
    simp [get_instance, hov, hp, hscope] at h1
    obtain ⟨hcache1, hnone1⟩ := scoped_get_sing_post env g1 s i s1 v h1
    cases f2 with
    | zero => exact Except.noConfusion h2
    | succ g2 =>
      simp [get_instance, hov, hp, hscope] at h2
      cases v with
      | pyobj n =>
        cases g2 with
        | zero => exact Except.noConfusion h2
        | succ g3 =>
          rw [scoped_get_hit env g3 s1 .sing i n hcache1] at h2
          simp only [Except.ok.injEq, Prod.mk.injEq] at h2
          exact h2.2.symm
      | pynone =>
        obtain ⟨q, hq, hqret⟩ := hnone1 rfl
        rw [hp] at hq
        injection hq with hq2
        subst hq2
        exact scoped_get_sing_value_none env g2 s1 i s2 w p hp hqret
          (.inl hcache1) h2

/-- The environment of the C5 witness: one singleton provider. -/
def c5Env : Env := ⟨[(1, ⟨plainObj "f" [], "singleton"⟩)], []⟩

/-- The resolution state after the first C5 resolution: object 0 cached. -/
def c5Mid : ResState := ⟨[(1, .pyobj 0)], [], none, 1, 1⟩

/-- C5 witness: resolving interface 1 twice from a fresh container yields
object 0 both times; the identity theorem instantiated at that input. -/
theorem c5_singleton_identity_witness :
    get_instance c5Env 4 emptyRes 1 = .ok (c5Mid, .pyobj 0) ∧
    get_instance c5Env 4 c5Mid 1 = .ok (c5Mid, .pyobj 0) ∧
    (Value.pyobj 0) = .pyobj 0 :=
  ⟨by decide, by decide,
   c5_singleton_identity c5Env 4 4 emptyRes c5Mid c5Mid 1
     ⟨plainObj "f" [], "singleton"⟩ (.pyobj 0) (.pyobj 0) rfl (by decide) rfl
     (by decide) (by decide)⟩

/-- C9: re-registering a bound interface with override = true replaces only
the registry entry — the container's resolution state, in particular the
instance cached in the owning scoped context, is untouched, and a
subsequent resolve of the singleton- or request-scoped interface returns
the cached instance built by the old provider (the state is not modified,
so the new provider's factory is never invoked).  Unregister, in contrast,
evicts the cached instance from the owning scoped context. -/
theorem c9_override_register_keeps_cache :
    (∀ (s : DIState) (i fresh : Interface) (q : Provider) (obj : ProviderObj)
        (n fuel : Nat),
      lookupA s.providers i = some q →
      lookupA s.overrideInstances i = none →
      i ≠ noneInterface →
      lookupA s.res.singletonInstances i = some (.pyobj n) →
      (register_provider_di s i fresh obj "singleton" true).1.res = s.res ∧
      lookupA (register_provider_di s i fresh obj "singleton" true).1.providers
        i = some ⟨obj, "singleton"⟩ ∧
      get_instance (register_provider_di s i fresh obj "singleton" true).1.env
        (fuel + 2) s.res i = .ok (s.res, .pyobj n)) ∧
    (∀ (s : DIState) (i fresh : Interface) (q : Provider) (obj : ProviderObj)
        (c : ReqCtx) (n fuel : Nat),
      lookupA s.providers i = some q →
      lookupA s.overrideInstances i = none →
      i ≠ noneInterface →
      s.res.requestCtx = some c →
      lookupA c.instances i = some (.pyobj n) →
      (register_provider_di s i fresh obj "request" true).1.res = s.res ∧
      lookupA (register_provider_di s i fresh obj "request" true).1.providers
        i = some ⟨obj, "request"⟩ ∧
      get_instance (register_provider_di s i fresh obj "request" true).1.env
        (fuel + 2) s.res i = .ok (s.res, .pyobj n)) ∧
    (∀ (s : DIState) (i : Interface) (p : Provider),
      lookupA s.providers i = some p →
      p.scope = "singleton" →
      lookupA (unregister_provider s i).1.res.singletonInstances i = none) ∧
    (∀ (s : DIState) (i : Interface) (p : Provider) (c : ReqCtx),
      lookupA s.providers i = some p →
      p.scope = "request" →
      s.res.requestCtx = some c →
      lookupA (readInstances (unregister_provider s i).1.res .req) i = none) := by
  refine ⟨?_, ?_, ?_, ?_⟩
  · intro s i fresh q obj n fuel hq hov hne hcache
    have hreg := register_override_replaces s.providers i fresh obj
      "singleton" hne (by rw [hq]; rfl)
    refine ⟨rfl, ?_, ?_⟩
    · simp [register_provider_di, hreg, lookupA_setA_self]
    · have henv : (register_provider_di s i fresh obj "singleton" true).1.env =
          ⟨setA s.providers i ⟨obj, "singleton"⟩, s.overrideInstances⟩ := by
        simp [register_provider_di, DIState.env, hreg]
      rw [henv]
      have hp2 : lookupA (setA s.providers i ⟨obj, "singleton"⟩) i =
          some ⟨obj, "singleton"⟩ := lookupA_setA_self _ _ _
      simp [get_instance, hov, hp2]
      exact scoped_get_hit _ fuel s.res .sing i n hcache
  · intro s i fresh q obj c n fuel hq hov hne hctx hcache
    have hreg := register_override_replaces s.providers i fresh obj
      "request" hne (by rw [hq]; rfl)
    refine ⟨rfl, ?_, ?_⟩
    · simp [register_provider_di, hreg, lookupA_setA_self]
    · have henv : (register_provider_di s i fresh obj "request" true).1.env =
          ⟨setA s.providers i ⟨obj, "request"⟩, s.overrideInstances⟩ := by
        simp [register_provider_di, DIState.env, hreg]
      rw [henv]
      have hp2 : lookupA (setA s.providers i ⟨obj, "request"⟩) i =
          some ⟨obj, "request"⟩ := lookupA_setA_self _ _ _
      simp [get_instance, hov, hp2, hctx]
      exact scoped_get_hit _ fuel s.res .req i n
        (by simp [readInstances, hctx, hcache])
  · intro s i p hp hscope
    simp [unregister_provider, hp, hscope, scoped_delete, lookupA_removeA_self]
  · intro s i p c hp hscope hctx
    simp [unregister_provider, hp, hscope, hctx, scoped_delete, readInstances,
      lookupA_removeA_self]

/-- The C9 witness container: a singleton provider bound at interface 1
whose instance, object 5, is cached in the singleton context. -/
def c9DI : DIState :=
  ⟨[(1, ⟨plainObj "old" [], "singleton"⟩)], [],
   ⟨[(1, .pyobj 5)], [], none, 6, 3⟩⟩

/-- C9 witness: replacing the provider of interface 1 with override = true
leaves the resolution state untouched, rebinds the registry entry, and a
subsequent resolve still returns the cached object 5 built by the old
provider. -/
theorem c9_override_register_keeps_cache_witness :
    (register_provider_di c9DI 1 9 (plainObj "new" []) "singleton" true).1.res
      = c9DI.res ∧
    lookupA (register_provider_di c9DI 1 9 (plainObj "new" [])
      "singleton" true).1.providers 1 = some ⟨plainObj "new" [], "singleton"⟩ ∧
    get_instance (register_provider_di c9DI 1 9 (plainObj "new" [])
      "singleton" true).1.env 4 c9DI.res 1 = .ok (c9DI.res, .pyobj 5) :=
  c9_override_register_keeps_cache.1 c9DI 1 9
    ⟨plainObj "old" [], "singleton"⟩ (plainObj "new" []) 5 2
    rfl rfl (by decide) rfl

/-- Storing an instance in a scoped context does not touch the call
counter. -/
theorem writeInstance_calls (s : ResState) (r : CtxRef) (i : Interface)
    (v : Value) : (writeInstance s r i v).calls = s.calls := by
  unfold writeInstance
  cases r
  · rfl
  · cases s.requestCtx <;> rfl

/-- Pushing a teardown does not touch the call counter. -/
theorem pushStack_calls (s : ResState) (r : CtxRef) (i : Interface) :
    (pushStack s r i).calls = s.calls := by
  unfold pushStack
  cases r
  · rfl
  · cases s.requestCtx <;> rfl

/-- Pushing on the request stack keeps the request context present. -/
theorem pushStack_requestCtx_some (s : ResState) (i : Interface) (c : ReqCtx)
    (hc : s.requestCtx = some c) :
    (pushStack s .req i).requestCtx = some { c with stack := c.stack ++ [i] } := by
  simp [pushStack, hc]

/-- Storing in the request cache keeps the request context present. -/
theorem writeInstance_requestCtx_some (s : ResState) (i : Interface)
    (v : Value) (c : ReqCtx) (hc : s.requestCtx = some c) :
    (writeInstance s .req i v).requestCtx =
      some { c with instances := setA c.instances i v } := by
  simp [writeInstance, hc]

/-- Pushing on a stack does not change any instance cache. -/
theorem readInstances_pushStack (s : ResState) (r : CtxRef) (i : Interface)
    (hreq : r = .req → ∃ c, s.requestCtx = some c) :
    readInstances (pushStack s r i) r = readInstances s r := by
  cases r
  · rfl
  · obtain ⟨c, hc⟩ := hreq rfl
    simp [readInstances, pushStack, hc]

/-- Reading the cache after a store sees the dictionary update (as long as
the referenced context exists, which resolution guarantees). -/
theorem readInstances_writeInstance (s : ResState) (r : CtxRef)
    (i : Interface) (v : Value)
    (hreq : r = .req → ∃ c, s.requestCtx = some c) :
    readInstances (writeInstance s r i v) r = setA (readInstances s r) i v := by
  cases r
  · rfl
  · obtain ⟨c, hc⟩ := hreq rfl
    simp [readInstances, writeInstance, hc]

/-- A scoped-context get of a paramless returns-None provider on an
effective cache miss (absent entry or stored None): the factory is invoked
exactly once more, the result None is returned, and the stored None still
reads back as None. -/
theorem scoped_get_none_step (env : Env) (fuel : Nat) (s : ResState)
    (i : Interface) (p : Provider) (r : CtxRef)
    (hp : lookupA env.providers i = some p)
    (hret : p.obj.returnsNone = true)
    (hparams : p.params = [])
    (hasync : p.is_async_resource = false)
    (hcoro : p.is_coroutine = false)
    (hreq : r = .req → ∃ c, s.requestCtx = some c)
    (hcache : lookupA (readInstances s r) i = none ∨
      lookupA (readInstances s r) i = some .pynone) :
    ∃ s1, scoped_get env (fuel + 3) s r i = .ok (s1, .pynone) ∧
      lookupA (readInstances s1 r) i = some .pynone ∧
      s1.calls = s.calls + 1 ∧
      (r = .req → ∃ c, s1.requestCtx = some c) := by
  have hinv : invokeFactory s p = ({ s with calls := s.calls + 1 }, .pynone) := by
    simp [invokeFactory, hret]
  have hreqmid : r = .req →
      ∃ c, ({ s with calls := s.calls + 1 } : ResState).requestCtx = some c := by
    intro hr
    obtain ⟨c, hc⟩ := hreq hr
    exact ⟨c, hc⟩
  by_cases hres : p.is_resource = true
  · refine ⟨writeInstance (pushStack { s with calls := s.calls + 1 } r i) r i
      .pynone, ?_, ?_, ?_, ?_⟩
    · rcases hcache with hc | hc
      all_goals
        simp [scoped_get, hc, hp, hres, create_resource, resolve_params,
          hparams, hinv]
    · rw [readInstances_writeInstance]
      · exact lookupA_setA_self _ _ _
      · intro hr
        obtain ⟨c, hc⟩ := hreqmid hr
        subst hr
        exact ⟨_, pushStack_requestCtx_some _ i c hc⟩
    · rw [writeInstance_calls, pushStack_calls]
    · intro hr
      obtain ⟨c, hc⟩ := hreqmid hr
      subst hr
      have h1 := pushStack_requestCtx_some { s with calls := s.calls + 1 } i c hc
      exact ⟨_, writeInstance_requestCtx_some _ i .pynone _ h1⟩
  · refine ⟨writeInstance { s with calls := s.calls + 1 } r i .pynone,
      ?_, ?_, ?_, ?_⟩
    · rcases hcache with hc | hc
      all_goals
        simp [scoped_get, hc, hp, hres, create_instance, hasync, hcoro,
          resolve_params, hparams, hinv]
    · rw [readInstances_writeInstance _ _ _ _ hreqmid]
      exact lookupA_setA_self _ _ _
    · rw [writeInstance_calls]
    · intro hr
      obtain ⟨c, hc⟩ := hreqmid hr
      subst hr
      exact ⟨_, writeInstance_requestCtx_some _ i .pynone c hc⟩

/-- Resolution of a paramless returns-None provider through its owning
scoped context: returns None, stores None (read back as a miss), and
invokes the factory exactly once; the owning-context condition is
preserved, so the step can be chained. -/
theorem get_instance_none_step (env : Env) (fuel : Nat) (s : ResState)
    (i : Interface) (p : Provider) (r : CtxRef)
    (hov : lookupA env.overrideInstances i = none)
    (hp : lookupA env.providers i = some p)
    (hret : p.obj.returnsNone = true)
    (hparams : p.params = [])
    (hasync : p.is_async_resource = false)
    (hcoro : p.is_coroutine = false)
    (hscope : (p.scope = "singleton" ∧ r = .sing) ∨
      (p.scope = "request" ∧ r = .req ∧ ∃ c, s.requestCtx = some c))
    (hcache : lookupA (readInstances s r) i = none ∨
      lookupA (readInstances s r) i = some .pynone) :
    ∃ s1, get_instance env (fuel + 4) s i = .ok (s1, .pynone) ∧
      lookupA (readInstances s1 r) i = some .pynone ∧
      s1.calls = s.calls + 1 ∧
      ((p.scope = "singleton" ∧ r = .sing) ∨
        (p.scope = "request" ∧ r = .req ∧ ∃ c, s1.requestCtx = some c)) := by
  rcases hscope with ⟨hsc, hr⟩ | ⟨hsc, hr, hctx⟩
  · subst hr
    obtain ⟨s1, hrun, h2, h3, h4⟩ := scoped_get_none_step env fuel s i p
      .sing hp hret hparams hasync hcoro (by intro hr; cases hr) hcache
    refine ⟨s1, ?_, h2, h3, .inl ⟨hsc, rfl⟩⟩
    simp [get_instance, hov, hp, hsc]
    exact hrun
  · subst hr
    obtain ⟨c, hc⟩ := hctx
    obtain ⟨s1, hrun, h2, h3, h4⟩ := scoped_get_none_step env fuel s i p
      .req hp hret hparams hasync hcoro (fun _ => ⟨c, hc⟩) hcache
    refine ⟨s1, ?_, h2, h3, .inr ⟨hsc, rfl, h4 rfl⟩⟩
    simp [get_instance, hov, hp, hsc, hc]
    exact hrun

/-- C10: for a singleton- or request-scoped provider whose (paramless)
factory returns None, the owning scoped context never effectively caches
the result: each resolution returns None and stores None, but the stored
None is treated as a cache miss, so the next resolution invokes the factory
again — each of two successive resolutions bumps the invocation counter by
exactly one, instead of the factory running once per context. -/
theorem c10_none_never_cached (env : Env) (f1 f2 : Nat) (s : ResState)
    (i : Interface) (p : Provider) (r : CtxRef)
    (hov : lookupA env.overrideInstances i = none)
    (hp : lookupA env.providers i = some p)
    (hret : p.obj.returnsNone = true)
    (hparams : p.params = [])
    (hasync : p.is_async_resource = false)
    (hcoro : p.is_coroutine = false)
    (hscope : (p.scope = "singleton" ∧ r = .sing) ∨
      (p.scope = "request" ∧ r = .req ∧ ∃ c, s.requestCtx = some c))
    (hcache : lookupA (readInstances s r) i = none ∨
      lookupA (readInstances s r) i = some .pynone) :
    ∃ s1 s2,
      get_instance env (f1 + 4) s i = .ok (s1, .pynone) ∧
      lookupA (readInstances s1 r) i = some .pynone ∧
      s1.calls = s.calls + 1 ∧
      get_instance env (f2 + 4) s1 i = .ok (s2, .pynone) ∧
      s2.calls = s1.calls + 1 := by
  obtain ⟨s1, hrun1, hc1, hcalls1, hscope1⟩ := get_instance_none_step env f1 s
    i p r hov hp hret hparams hasync hcoro hscope hcache
  obtain ⟨s2, hrun2, hc2, hcalls2, h4⟩ := get_instance_none_step env f2 s1
    i p r hov hp hret hparams hasync hcoro hscope1 (.inr hc1)
  exact ⟨s1, s2, hrun1, hc1, hcalls1, hrun2, hcalls2⟩

/-- A singleton provider whose factory returns None. -/
def noneObj : ProviderObj := ⟨"n", false, true, false, false, false, true, []⟩

/-- The C10 witness environment: the returns-None provider bound at
interface 1 with singleton scope. -/
def c10Env : Env := ⟨[(1, ⟨noneObj, "singleton"⟩)], []⟩

/-- C10 witness: from a fresh container, two resolutions of interface 1
each return None and each invoke the factory once (the call counter goes
0, 1, 2), although the interface is singleton scoped. -/
theorem c10_none_never_cached_witness :
    ∃ s1 s2,
      get_instance c10Env 4 emptyRes 1 = .ok (s1, .pynone) ∧
      lookupA (readInstances s1 .sing) 1 = some .pynone ∧
      s1.calls = 1 ∧
      get_instance c10Env 4 s1 1 = .ok (s2, .pynone) ∧
      s2.calls = s1.calls + 1 := by
  have h := c10_none_never_cached c10Env 0 0 emptyRes 1 ⟨noneObj, "singleton"⟩
    .sing rfl rfl rfl rfl rfl rfl (.inl ⟨rfl, rfl⟩) (.inl rfl)
  simpa using h

end Pyxdi
